import Mathlib

/-!
Verification development for the mindtwin telemetry consumer
(src/consumer.py).  The definitions below are a shallow embedding of the
ingestion, threshold-evaluation, deduplication, settings and
publishing logic.  Python floats are modelled as rationals, the shared
module-level state as an explicit record threaded through the per-line
step functions, and exceptions as early returns / Except.
-/

namespace MindTwin

/-- ERROR_COOLDOWN from consumer.py line 32 (seconds). -/
def ERROR_COOLDOWN : ℚ := 5.0

/-- FRAME_HISTORY_SIZE from consumer.py line 33 (deque maxlen). -/
def FRAME_HISTORY_SIZE : ℕ := 200

/-- TORQUE_THRESHOLD from consumer.py line 38. -/
def TORQUE_THRESHOLD : ℚ := 0.47

/-- KELVIN_OFFSET from consumer.py line 43. -/
def KELVIN_OFFSET : ℚ := 273.15

/-- Result of looking up one key of a decoded JSON object: the key may be
absent, present but not coercible to the required numeric type (so that
`float(...)`/`int(...)` raises), or present with a good value. -/
inductive JVal (α : Type) where
  | missing : JVal α
  | invalid : JVal α
  | ok : α → JVal α
deriving DecidableEq

/-- A decoded thermal JSON object, field by field as accessed by
`Sink.add` (consumer.py lines 123-129).  `timestamp` is `none` when the
key is absent (then `obj["timestamp"]` raises KeyError); `image_path`
is read with `.get` so absence is just `none`; `frame_no` is read with
`.get("frame_no", -1)`, so absence yields the default -1 while a
non-coercible value makes `int(...)` raise. -/
structure ThermalObj where
  timestamp : Option String
  t_min : JVal ℚ
  t_max : JVal ℚ
  t_mean : JVal ℚ
  image_path : Option String
  frame_no : JVal ℤ
deriving DecidableEq

/-- A thermal object whose required fields are all present and numeric. -/
def mkValidObj (ts : String) (mn mx me : ℚ) (ip : Option String) (fn : ℤ) : ThermalObj :=
  { timestamp := some ts, t_min := JVal.ok mn, t_max := JVal.ok mx,
    t_mean := JVal.ok me, image_path := ip, frame_no := JVal.ok fn }

/-- The per-server thermal accumulator Sink (consumer.py lines 114-121). -/
structure Sink where
  timestamps : List String
  mins : List ℚ
  maxs : List ℚ
  means : List ℚ
  image_paths : List (Option String)
  frame_nos : List ℤ
deriving DecidableEq

/-- Sink with all lists empty (Sink.__init__, consumer.py lines 115-121). -/
def emptySink : Sink :=
  { timestamps := [], mins := [], maxs := [], means := [], image_paths := [], frame_nos := [] }

/-- Sink.add (consumer.py lines 123-129).  The Python method appends one
field at a time; an exception raised part way (missing key or failed
numeric coercion) leaves the earlier appends in place.  The returned
Bool is true when every append succeeded (no exception). -/
def sinkAdd (s : Sink) (o : ThermalObj) : Sink × Bool :=
  match o.timestamp with
  | none => (s, false)
  | some ts =>
    let s1 := { s with timestamps := s.timestamps ++ [ts] }
    match o.t_min with
    | JVal.missing => (s1, false)
    | JVal.invalid => (s1, false)
    | JVal.ok mn =>
      let s2 := { s1 with mins := s1.mins ++ [mn] }
      match o.t_max with
      | JVal.missing => (s2, false)
      | JVal.invalid => (s2, false)
      | JVal.ok mx =>
        let s3 := { s2 with maxs := s2.maxs ++ [mx] }
        match o.t_mean with
        | JVal.missing => (s3, false)
        | JVal.invalid => (s3, false)
        | JVal.ok me =>
          let s4 := { s3 with means := s3.means ++ [me] }
          let s5 := { s4 with image_paths := s4.image_paths ++ [o.image_path] }
          match o.frame_no with
          | JVal.missing => ({ s5 with frame_nos := s5.frame_nos ++ [-1] }, true)
          | JVal.invalid => (s5, false)
          | JVal.ok fn => ({ s5 with frame_nos := s5.frame_nos ++ [fn] }, true)

/-- The result of Sink.add on a fully valid object: every list grows by
one element. -/
def sinkAppendValid (s : Sink) (ts : String) (mn mx me : ℚ) (ip : Option String) (fn : ℤ) : Sink :=
  { timestamps := s.timestamps ++ [ts], mins := s.mins ++ [mn], maxs := s.maxs ++ [mx],
    means := s.means ++ [me], image_paths := s.image_paths ++ [ip],
    frame_nos := s.frame_nos ++ [fn] }

/-- The settings dict (consumer.py lines 45-49). -/
structure Settings where
  thermal_threshold_c : ℚ
  thermal_warning_c : ℚ
  thermal_critical_c : ℚ
deriving DecidableEq

/-- DEFAULT_SETTINGS (consumer.py lines 45-49). -/
def DEFAULT_SETTINGS : Settings :=
  { thermal_threshold_c := 30.0, thermal_warning_c := 30.0, thermal_critical_c := 33.0 }

/-- is_kelvin_value (consumer.py lines 79-81); the sample is never None
in this model, so only the magnitude test remains. -/
def is_kelvin_value (t : ℚ) : Bool :=
  t > 120.0

/-- thr_in_same_unit (consumer.py lines 84-86). -/
def thr_in_same_unit (sample_t thr_c : ℚ) : ℚ :=
  if is_kelvin_value sample_t then thr_c + KELVIN_OFFSET else thr_c

/-- Thermal severity ladder (consumer.py lines 183-188). -/
def thermalSeverity (t_max warn_raw crit_raw : ℚ) : String :=
  if t_max > crit_raw then "CRITICAL"
  else if t_max > warn_raw then "WARNING"
  else "INFO"

/-- Keys of last_error_time: ("THERMAL", frame_no) or ("TORQUE", joint). -/
abbrev DedupKey := String × ℤ

/-- Python dict lookup on the last_error_time association list. -/
def dictGet (m : List (DedupKey × ℚ)) (key : DedupKey) : Option ℚ :=
  match m with
  | [] => none
  | (k, v) :: rest => if k = key then some v else dictGet rest key

/-- Python dict assignment last_error_time[key] = v. -/
def dictSet (m : List (DedupKey × ℚ)) (key : DedupKey) (v : ℚ) : List (DedupKey × ℚ) :=
  (key, v) :: m.filter (fun p => decide (p.1 ≠ key))

/-- The dedup guard `key not in last_error_time or now - last_error_time[key]
> ERROR_COOLDOWN` (consumer.py line 182 and line 292). -/
def should_emit (m : List (DedupKey × ℚ)) (key : DedupKey) (now : ℚ) : Bool :=
  match dictGet m key with
  | none => true
  | some t => decide (now - t > ERROR_COOLDOWN)

/-- The meta mapping of an event dict (consumer.py lines 195-201 for
thermal, lines 305-310 for torque). -/
inductive EventMeta where
  | thermal (t_max t_max_c threshold threshold_c : ℚ) (frame_no : ℤ)
  | torque (joint : ℕ) (diff threshold : ℚ) (frame_no : ℤ)
deriving DecidableEq

/-- An event dict appended to error_log and to events.log. -/
structure AlertEvent where
  timestamp : String
  type : String
  severity : String
  message : String
  meta : EventMeta
deriving DecidableEq

/-- The thermal event dict (consumer.py lines 190-202). -/
def thermalEvent (ts severity : String) (t_max t_max_c thr_raw thr_c : ℚ) (fn : ℤ) : AlertEvent :=
  { timestamp := ts, type := "THERMAL", severity := severity,
    message := "High temperature detected",
    meta := EventMeta.thermal t_max t_max_c thr_raw thr_c fn }

/-- A decoded torque JSON packet with the fields read by the torque loop
(consumer.py lines 280-320): frame_no, timestamp, torque_ideal,
torque_actual. -/
structure TorquePkt where
  frame_no : ℤ
  timestamp : String
  torque_ideal : List ℚ
  torque_actual : List ℚ
deriving DecidableEq

/-- The torque packet as published to latest_torque after the loop adds
the derived keys pkt["diffs"] and pkt["anomaly"] (consumer.py lines
283-284, 319). -/
structure TorqueOut where
  frame_no : ℤ
  timestamp : String
  torque_ideal : List ℚ
  torque_actual : List ℚ
  diffs : List ℚ
  anomaly : Bool
deriving DecidableEq

/-- The mutable module-level state of consumer.py (lines 92-97) together
with the per-server thermal Sink (line 218) and the append-only
events.log file contents. -/
structure ConsumerState where
  sink : Sink
  latest_frame : Option ThermalObj
  latest_torque : Option TorqueOut
  frame_history : List ThermalObj
  error_log : List AlertEvent
  events_file : List AlertEvent
  last_error_time : List (DedupKey × ℚ)
deriving DecidableEq

/-- frame_history.append on a deque with maxlen 200: the oldest entry is
evicted when the capacity would be exceeded (consumer.py lines 94, 154). -/
def dequeAppend (h : List ThermalObj) (x : ThermalObj) : List ThermalObj :=
  let h2 := h ++ [x]
  if h2.length > FRAME_HISTORY_SIZE then h2.drop (h2.length - FRAME_HISTORY_SIZE) else h2

/-- The state at process start: empty sink, no latest frames, empty
history, empty logs and dedup map (consumer.py lines 92-97 with no
pre-existing events.log). -/
def initialConsumerState : ConsumerState :=
  { sink := emptySink, latest_frame := none, latest_torque := none,
    frame_history := [], error_log := [], events_file := [], last_error_time := [] }

/-- Continuation of the thermal per-line try block after a successful
Sink.add (consumer.py lines 156-208): index the sink, read settings,
normalize thresholds to the unit of the sample, read
`sink.frame_nos[i]` and `sink.timestamps[i]` for the live log line, and
run event detection with deduplication.  Any list index that is out of
range raises IndexError, which the surrounding `except` catches, ending
the iteration with the state as mutated so far. -/
def thermalDetect (cfg : Settings) (st1 : ConsumerState) (obj : ThermalObj) (now : ℚ) : ConsumerState :=
  let i := st1.sink.mins.length - 1
  match st1.sink.maxs[i]? with
  | none => st1
  | some t_max =>
    let thr_raw := thr_in_same_unit t_max cfg.thermal_threshold_c
    let warn_raw := thr_in_same_unit t_max cfg.thermal_warning_c
    let crit_raw := thr_in_same_unit t_max cfg.thermal_critical_c
    let t_max_c := if is_kelvin_value t_max then t_max - KELVIN_OFFSET else t_max
    match st1.sink.frame_nos[i]?, st1.sink.timestamps[i]? with
    | some fn, some _ts_i =>
      if t_max ≥ thr_raw then
        if should_emit st1.last_error_time ("THERMAL", fn) now then
          match obj.timestamp with
          | some obj_ts =>
            let severity := thermalSeverity t_max warn_raw crit_raw
            let ev := thermalEvent obj_ts severity t_max t_max_c thr_raw cfg.thermal_threshold_c fn
            { st1 with error_log := st1.error_log ++ [ev],
                       last_error_time := dictSet st1.last_error_time ("THERMAL", fn) now,
                       events_file := st1.events_file ++ [ev] }
          | none => st1
        else st1
      else st1
    | _, _ => st1

/-- One complete line of the thermal NDJSON stream (consumer.py lines
144-214).  `none` models a line on which json.loads raises; the
exception is caught by the per-line `except`, so the state is
unchanged.  On a parsed object, Sink.add runs first; if it raises part
way the partially mutated sink is kept and everything else is
untouched.  On success the latest-frame slot and the rolling history
are updated and detection runs. -/
def thermalLineStep (cfg : Settings) (st : ConsumerState) (now : ℚ) (line : Option ThermalObj) : ConsumerState :=
  match line with
  | none => st
  | some obj =>
    let res := sinkAdd st.sink obj
    if res.2 then
      let st1 := { st with
        sink := res.1,
        latest_frame := some obj,
        frame_history := dequeAppend st.frame_history obj }
      thermalDetect cfg st1 obj now
    else
      { st with sink := res.1 }

/-- The thermal per-connection loop over complete lines, each with the
wall-clock time at which it is handled (consumer.py lines 137-214). -/
def processThermalLines (cfg : Settings) (st : ConsumerState) : List (ℚ × Option ThermalObj) → ConsumerState
  | [] => st
  | (now, line) :: rest => processThermalLines cfg (thermalLineStep cfg st now line) rest

/-- detect_torque_anomaly (consumer.py lines 245-248). -/
def detect_torque_anomaly (actual ideal : List ℚ) : List ℚ × List Bool :=
  let diffs := (actual.zip ideal).map (fun p => |p.1 - p.2|)
  let flags := diffs.map (fun d => decide (d > TORQUE_THRESHOLD))
  (diffs, flags)

/-- Torque severity ladder (consumer.py lines 293-298). -/
def torqueSeverity (d : ℚ) : String :=
  if d > 0.6 then "CRITICAL"
  else if d > 0.3 then "WARNING"
  else "INFO"

/-- The torque event dict (consumer.py lines 300-311). -/
def torqueEvent (ts : String) (j : ℕ) (d : ℚ) (fn : ℤ) : AlertEvent :=
  { timestamp := ts, type := "TORQUE", severity := torqueSeverity d,
    message := "Joint " ++ toString (j + 1) ++ " torque exceeded threshold",
    meta := EventMeta.torque (j + 1) d TORQUE_THRESHOLD fn }

/-- Python enumerate over a list of diffs, with the running index. -/
def enumerateFrom (k : ℕ) : List ℚ → List (ℕ × ℚ)
  | [] => []
  | d :: rest => (k, d) :: enumerateFrom (k + 1) rest

/-- enumerate(diffs) as used at consumer.py line 287. -/
def enumerate (l : List ℚ) : List (ℕ × ℚ) :=
  enumerateFrom 0 l

/-- The body of `for j, d in enumerate(pkt["diffs"])` (consumer.py lines
287-317): joints whose diff exceeds TORQUE_THRESHOLD go through the
dedup guard and, when it passes, an event is appended to error_log and
to events.log and the key is stamped with now. -/
def torqueJointStep (now : ℚ) (ts : String) (fn : ℤ) (st : ConsumerState) (jd : ℕ × ℚ) : ConsumerState :=
  if jd.2 > TORQUE_THRESHOLD then
    if should_emit st.last_error_time ("TORQUE", (jd.1 : ℤ) + 1) now then
      let ev := torqueEvent ts jd.1 jd.2 fn
      { st with error_log := st.error_log ++ [ev],
                events_file := st.events_file ++ [ev],
                last_error_time := dictSet st.last_error_time ("TORQUE", (jd.1 : ℤ) + 1) now }
    else st
  else st

/-- One complete line of the torque NDJSON stream (consumer.py lines
275-321).  The torque loop has no try/except around json.loads, so a
malformed line raises an uncaught exception that propagates out of the
connection loop and the accept loop: modelled as Except.error, which
aborts processing of the stream. -/
def torqueLineStep (st : ConsumerState) (now : ℚ) (line : Option TorquePkt) : Except String ConsumerState :=
  match line with
  | none => Except.error "json decode error"
  | some pkt =>
    let diffs := (detect_torque_anomaly pkt.torque_actual pkt.torque_ideal).1
    let flags := (detect_torque_anomaly pkt.torque_actual pkt.torque_ideal).2
    let anomaly := flags.any id
    let st1 := if anomaly then (enumerate diffs).foldl (torqueJointStep now pkt.timestamp pkt.frame_no) st else st
    let out : TorqueOut := { frame_no := pkt.frame_no, timestamp := pkt.timestamp,
                             torque_ideal := pkt.torque_ideal, torque_actual := pkt.torque_actual,
                             diffs := diffs, anomaly := anomaly }
    Except.ok { st1 with latest_torque := some out }

/-- The torque per-connection loop over complete lines (consumer.py
lines 262-321).  An uncaught exception on any line terminates the whole
loop, so no later line is processed. -/
def processTorqueLines (st : ConsumerState) : List (ℚ × Option TorquePkt) → Except String ConsumerState
  | [] => Except.ok st
  | (now, line) :: rest =>
    match torqueLineStep st now line with
    | Except.error e => Except.error e
    | Except.ok st1 => processTorqueLines st1 rest

/-- Response of GET /frames/latest (consumer.py lines 351-355): an
explicit "no data yet" object when nothing has been ingested, the
latest frame otherwise. -/
inductive LatestResp where
  | noData
  | frame (f : ThermalObj)
deriving DecidableEq

/-- get_latest (consumer.py lines 351-355). -/
def get_latest (latest : Option ThermalObj) : LatestResp :=
  match latest with
  | none => LatestResp.noData
  | some f => LatestResp.frame f

/-- One iteration of the websocket /ws push loop (consumer.py lines
386-392): when latest_frame is None nothing at all is sent this tick
(the loop just sleeps 0.5 s); otherwise the latest frame is sent. -/
def websocket_thermal_tick (latest : Option ThermalObj) : Option ThermalObj :=
  match latest with
  | none => none
  | some f => some f

/-- json.dump of the full settings dict by save_settings (consumer.py
lines 73-76): every key is written. -/
def serialize_settings (s : Settings) : List (String × ℚ) :=
  [("thermal_threshold_c", s.thermal_threshold_c),
   ("thermal_warning_c", s.thermal_warning_c),
   ("thermal_critical_c", s.thermal_critical_c)]

/-- Merge of one stored key/value pair into the settings during load:
recognized keys (those of DEFAULT_SETTINGS) overwrite the default,
unrecognized keys are ignored (consumer.py line 63). -/
def applySetting (s : Settings) (kv : String × ℚ) : Settings :=
  if kv.1 = "thermal_threshold_c" then { s with thermal_threshold_c := kv.2 }
  else if kv.1 = "thermal_warning_c" then { s with thermal_warning_c := kv.2 }
  else if kv.1 = "thermal_critical_c" then { s with thermal_critical_c := kv.2 }
  else s

/-- load_settings (consumer.py lines 55-70) on a well-formed store: the
stored entries are merged into a copy of the defaults; an absent file
leaves the defaults. -/
def load_settings (file : Option (List (String × ℚ))) : Settings :=
  match file with
  | some entries => entries.foldl applySetting DEFAULT_SETTINGS
  | none => DEFAULT_SETTINGS

/-- get_thermal_settings (consumer.py lines 368-371). -/
def get_thermal_settings (s : Settings) : ℚ :=
  s.thermal_threshold_c

/-- set_thermal_settings (consumer.py lines 374-379): the field is
updated, then save_settings writes the full settings object to the
durable store before the handler returns.  Returns the new settings and
the durably written document. -/
def set_thermal_settings (s : Settings) (v : ℚ) : Settings × List (String × ℚ) :=
  let s1 := { s with thermal_threshold_c := v }
  (s1, serialize_settings s1)

/-- The shared structures of consumer.py named by the concurrency
discipline: the two latest-state slots, the rolling history, the dedup
timestamp map, the in-memory event log, the settings dict, and the
per-server sink accumulator. -/
inductive Shared where
  | latestFrame
  | latestTorque
  | frameHistory
  | dedupMap
  | eventLog
  | settingsMap
  | sinkAcc
deriving DecidableEq

/-- Primitive actions on shared state, in program order: acquiring or
releasing _settings_lock (the only lock in consumer.py, line 51), and
mutating or reading one of the shared structures. -/
inductive Action where
  | acquire
  | release
  | mut (s : Shared)
  | rd (s : Shared)
deriving DecidableEq

/-- Annotate each action of a trace with whether _settings_lock is held
while it runs, tracking the nesting depth of `with _settings_lock`. -/
def annotateLock (d : ℕ) : List Action → List (Action × Bool)
  | [] => []
  | Action.acquire :: rest => (Action.acquire, decide (0 < d)) :: annotateLock (d + 1) rest
  | Action.release :: rest => (Action.release, decide (0 < d - 1)) :: annotateLock (d - 1) rest
  | a :: rest => (a, decide (0 < d)) :: annotateLock d rest

/-- Every mutation of the given structure in the trace runs while the
lock is held. -/
def mutationLocked (tr : List Action) (s : Shared) : Bool :=
  (annotateLock 0 tr).all (fun p => !(decide (p.1 = Action.mut s)) || p.2)

/-- Every read of the given structure in the trace runs while the lock
is held. -/
def readLocked (tr : List Action) (s : Shared) : Bool :=
  (annotateLock 0 tr).all (fun p => !(decide (p.1 = Action.rd s)) || p.2)

/-- Every access (read or mutation) of the given structure in the trace
runs with no lock held. -/
def accessUnlocked (tr : List Action) (s : Shared) : Bool :=
  (annotateLock 0 tr).all
    (fun p => (!(decide (p.1 = Action.mut s)) && !(decide (p.1 = Action.rd s))) || !p.2)

/-- Shared-state access trace of one thermal line on the success path
with an emitted event (consumer.py lines 149-208): sink.add mutates the
sink (152), latest_frame is overwritten (153), frame_history appended
(154), the sink is read back (156-157), settings are read under
_settings_lock (160-163), the dedup map is read (182), error_log is
appended (204) and the dedup map stamped (205).  Only the settings read
is inside a `with _settings_lock` block. -/
def thermalLineTrace : List Action :=
  [Action.mut Shared.sinkAcc,
   Action.mut Shared.latestFrame,
   Action.mut Shared.frameHistory,
   Action.rd Shared.sinkAcc,
   Action.acquire,
   Action.rd Shared.settingsMap,
   Action.release,
   Action.rd Shared.dedupMap,
   Action.mut Shared.eventLog,
   Action.mut Shared.dedupMap]

/-- Shared-state access trace of one torque line with one emitted joint
event (consumer.py lines 280-320): dedup map read (292), error_log
appended (313), dedup map stamped (317), latest_torque overwritten
(319).  No lock is ever taken on this path. -/
def torqueLineTrace : List Action :=
  [Action.rd Shared.dedupMap,
   Action.mut Shared.eventLog,
   Action.mut Shared.dedupMap,
   Action.mut Shared.latestTorque]

/-- Trace of GET /frames/latest (consumer.py lines 352-355): an unlocked
read of latest_frame. -/
def getLatestTrace : List Action :=
  [Action.rd Shared.latestFrame]

/-- Trace of GET /errors (consumer.py lines 359-360): an unlocked copy
of the tail of error_log. -/
def getErrorsTrace : List Action :=
  [Action.rd Shared.eventLog]

/-- Trace of one /ws push-loop iteration (consumer.py lines 386-392): an
unlocked read of latest_frame. -/
def websocketThermalTrace : List Action :=
  [Action.rd Shared.latestFrame]

/-- Trace of GET /settings/thermal (consumer.py lines 369-371): the
settings read is under _settings_lock. -/
def getSettingsTrace : List Action :=
  [Action.acquire, Action.rd Shared.settingsMap, Action.release]

/-- Trace of POST /settings/thermal (consumer.py lines 375-379): the
settings mutation is under _settings_lock, then save_settings
re-acquires the lock and reads the settings for the durable write. -/
def setSettingsTrace : List Action :=
  [Action.acquire, Action.mut Shared.settingsMap, Action.release,
   Action.acquire, Action.rd Shared.settingsMap, Action.release]

/-- The state after the latest-frame slot and rolling history were
updated for a decoded object (consumer.py lines 152-154). -/
def afterPublish (st : ConsumerState) (obj : ThermalObj) (snk : Sink) : ConsumerState :=
  { st with sink := snk, latest_frame := some obj,
            frame_history := dequeAppend st.frame_history obj }

/-- A well-formed torque packet with a 0.5 torque deviation on joint 3
(index 2), all other joints ideal. -/
def pktJ3 : TorquePkt :=
  { frame_no := 1, timestamp := "tq",
    torque_ideal := [1, 1, 1, 1, 1, 1], torque_actual := [1, 1, 1.5, 1, 1, 1] }

/-- A thermal object whose JSON parses (with a timestamp) but whose
required numeric fields are absent: Sink.add raises KeyError at t_min
after having appended the timestamp. -/
def badThermalObj : ThermalObj :=
  { timestamp := some "tb", t_min := JVal.missing, t_max := JVal.missing,
    t_mean := JVal.missing, image_path := none, frame_no := JVal.missing }

/-! Helper lemmas about the embedding. -/

/-- Sink.add on a fully valid object succeeds and appends every field. -/
lemma sinkAdd_mkValidObj (s : Sink) (ts : String) (mn mx me : ℚ) (ip : Option String) (fn : ℤ) :
    sinkAdd s (mkValidObj ts mn mx me ip fn) = (sinkAppendValid s ts mn mx me ip fn, true) :=
  rfl

lemma sinkAppendValid_mins_sub (s : Sink) (ts : String) (mn mx me : ℚ) (ip : Option String) (fn : ℤ) :
    (sinkAppendValid s ts mn mx me ip fn).mins.length - 1 = s.mins.length := by
  simp [sinkAppendValid]

lemma sinkAppendValid_maxs_get (s : Sink) (ts : String) (mn mx me : ℚ) (ip : Option String) (fn : ℤ)
    (h : s.maxs.length = s.mins.length) :
    (sinkAppendValid s ts mn mx me ip fn).maxs[(sinkAppendValid s ts mn mx me ip fn).mins.length - 1]? = some mx := by
  rw [sinkAppendValid_mins_sub]
  show (s.maxs ++ [mx])[s.mins.length]? = some mx
  rw [← h]
  exact List.getElem?_concat_length s.maxs mx

lemma sinkAppendValid_frame_nos_get (s : Sink) (ts : String) (mn mx me : ℚ) (ip : Option String) (fn : ℤ)
    (h : s.frame_nos.length = s.mins.length) :
    (sinkAppendValid s ts mn mx me ip fn).frame_nos[(sinkAppendValid s ts mn mx me ip fn).mins.length - 1]? = some fn := by
  rw [sinkAppendValid_mins_sub]
  show (s.frame_nos ++ [fn])[s.mins.length]? = some fn
  rw [← h]
  exact List.getElem?_concat_length s.frame_nos fn

lemma sinkAppendValid_timestamps_get (s : Sink) (ts : String) (mn mx me : ℚ) (ip : Option String) (fn : ℤ)
    (h : s.timestamps.length = s.mins.length) :
    (sinkAppendValid s ts mn mx me ip fn).timestamps[(sinkAppendValid s ts mn mx me ip fn).mins.length - 1]? = some ts := by
  rw [sinkAppendValid_mins_sub]
  show (s.timestamps ++ [ts])[s.mins.length]? = some ts
  rw [← h]
  exact List.getElem?_concat_length s.timestamps ts

/-- The detection phase, written out for a state whose sink indexing
succeeds. -/
lemma thermalDetect_eq (cfg : Settings) (st1 : ConsumerState) (obj : ThermalObj) (now : ℚ)
    (t_max : ℚ) (fn : ℤ) (ts_i obj_ts : String)
    (hmax : st1.sink.maxs[st1.sink.mins.length - 1]? = some t_max)
    (hfn : st1.sink.frame_nos[st1.sink.mins.length - 1]? = some fn)
    (hts : st1.sink.timestamps[st1.sink.mins.length - 1]? = some ts_i)
    (hots : obj.timestamp = some obj_ts) :
    thermalDetect cfg st1 obj now =
      (if t_max ≥ thr_in_same_unit t_max cfg.thermal_threshold_c then
        if should_emit st1.last_error_time ("THERMAL", fn) now then
          (let ev := thermalEvent obj_ts
            (thermalSeverity t_max (thr_in_same_unit t_max cfg.thermal_warning_c)
              (thr_in_same_unit t_max cfg.thermal_critical_c))
            t_max (if is_kelvin_value t_max then t_max - KELVIN_OFFSET else t_max)
            (thr_in_same_unit t_max cfg.thermal_threshold_c) cfg.thermal_threshold_c fn
          { st1 with error_log := st1.error_log ++ [ev],
                     last_error_time := dictSet st1.last_error_time ("THERMAL", fn) now,
                     events_file := st1.events_file ++ [ev] })
        else st1
      else st1) := by
  simp only [thermalDetect, hmax, hfn, hts, hots]

/-- A full description of the thermal per-line step on a valid object
over any state whose sink lists are in sync. -/
lemma thermalLineStep_valid (cfg : Settings) (st : ConsumerState) (now : ℚ)
    (ts : String) (mn mx me : ℚ) (ip : Option String) (fn : ℤ)
    (hmax : st.sink.maxs.length = st.sink.mins.length)
    (hfn : st.sink.frame_nos.length = st.sink.mins.length)
    (hts : st.sink.timestamps.length = st.sink.mins.length) :
    thermalLineStep cfg st now (some (mkValidObj ts mn mx me ip fn)) =
      (let obj := mkValidObj ts mn mx me ip fn
       let st1 := afterPublish st obj (sinkAppendValid st.sink ts mn mx me ip fn)
       if mx ≥ thr_in_same_unit mx cfg.thermal_threshold_c then
        if should_emit st.last_error_time ("THERMAL", fn) now then
          (let ev := thermalEvent ts
            (thermalSeverity mx (thr_in_same_unit mx cfg.thermal_warning_c)
              (thr_in_same_unit mx cfg.thermal_critical_c))
            mx (if is_kelvin_value mx then mx - KELVIN_OFFSET else mx)
            (thr_in_same_unit mx cfg.thermal_threshold_c) cfg.thermal_threshold_c fn
          { st1 with error_log := st1.error_log ++ [ev],
                     last_error_time := dictSet st1.last_error_time ("THERMAL", fn) now,
                     events_file := st1.events_file ++ [ev] })
        else st1
       else st1) := by
  have hstep : thermalLineStep cfg st now (some (mkValidObj ts mn mx me ip fn)) =
      thermalDetect cfg (afterPublish st (mkValidObj ts mn mx me ip fn)
        (sinkAppendValid st.sink ts mn mx me ip fn)) (mkValidObj ts mn mx me ip fn) now := by
    simp [thermalLineStep, sinkAdd_mkValidObj, afterPublish]
  rw [hstep]
  rw [thermalDetect_eq cfg _ _ now mx fn ts ts
    (sinkAppendValid_maxs_get st.sink ts mn mx me ip fn hmax)
    (sinkAppendValid_frame_nos_get st.sink ts mn mx me ip fn hfn)
    (sinkAppendValid_timestamps_get st.sink ts mn mx me ip fn hts)
    rfl]
  simp only [afterPublish]

/-- Looking up a freshly stamped dedup key yields the stamped time. -/
lemma dictGet_dictSet (m : List (DedupKey × ℚ)) (key : DedupKey) (v : ℚ) :
    dictGet (dictSet m key v) key = some v := by
  simp [dictGet, dictSet]

/-! Claim theorems. -/

/-- C1 (amended): a line on which decode fails is non-fatal for the
thermal stream only: the thermal per-connection loop leaves the state
untouched and processes the remaining lines exactly as if the bad line
were absent; the torque loop, whose json.loads is not guarded by a
try/except, raises on the malformed line and aborts the stream, so
subsequent valid lines are never processed. -/
theorem C1_decode_failure_scope (cfg : Settings) (st : ConsumerState) (now : ℚ)
    (rest : List (ℚ × Option ThermalObj)) (trest : List (ℚ × Option TorquePkt)) :
    processThermalLines cfg st ((now, none) :: rest) = processThermalLines cfg st rest ∧
    processTorqueLines st ((now, none) :: trest) = Except.error "json decode error" :=
  ⟨rfl, rfl⟩

/-- C1 counterexample: on the torque stream a malformed line aborts the
connection with an uncaught exception, and the following valid line is
never processed — refuting the claim that for every ingestion stream a
decode failure is non-fatal and subsequent valid lines are still
processed. -/
theorem C1_cex_torque_malformed_kills_stream :
    processTorqueLines initialConsumerState [(0, none), (1, some pktJ3)] =
      Except.error "json decode error" :=
  rfl

/-- C2: from a fresh state, a valid thermal frame produces an event iff
t_max is at least the threshold normalized to the unit of the sample,
the emitted event severity follows the CRITICAL/WARNING/INFO ladder on
the normalized critical and warning bounds, and under the default
config (threshold 30, warning 30, critical 33) a frame with t_max 32
fires WARNING while t_max 34 fires CRITICAL. -/
theorem C2_thermal_threshold_severity (cfg : Settings) (now : ℚ) (ts : String)
    (mn mx me : ℚ) (ip : Option String) (fn : ℤ) :
    (((thermalLineStep cfg initialConsumerState now (some (mkValidObj ts mn mx me ip fn))).error_log ≠ []) ↔
      mx ≥ thr_in_same_unit mx cfg.thermal_threshold_c) ∧
    (mx ≥ thr_in_same_unit mx cfg.thermal_threshold_c →
      (thermalLineStep cfg initialConsumerState now (some (mkValidObj ts mn mx me ip fn))).error_log =
        [thermalEvent ts
          (if mx > thr_in_same_unit mx cfg.thermal_critical_c then "CRITICAL"
           else if mx > thr_in_same_unit mx cfg.thermal_warning_c then "WARNING" else "INFO")
          mx (if is_kelvin_value mx then mx - KELVIN_OFFSET else mx)
          (thr_in_same_unit mx cfg.thermal_threshold_c) cfg.thermal_threshold_c fn]) ∧
    ((processThermalLines DEFAULT_SETTINGS initialConsumerState
        [(0, some (mkValidObj "t0" 20 32 25 none 1))]).error_log.map AlertEvent.severity = ["WARNING"]) ∧
    ((processThermalLines DEFAULT_SETTINGS initialConsumerState
        [(0, some (mkValidObj "t0" 20 34 25 none 1))]).error_log.map AlertEvent.severity = ["CRITICAL"]) := by
  have key := thermalLineStep_valid cfg initialConsumerState now ts mn mx me ip fn rfl rfl rfl
  refine ⟨?_, ?_, ?_, ?_⟩
  · rw [key]
    by_cases halert : mx ≥ thr_in_same_unit mx cfg.thermal_threshold_c
    · simp [halert, afterPublish, should_emit, dictGet, initialConsumerState, emptySink]
    · simp [halert, afterPublish, initialConsumerState]
  · intro halert
    rw [key]
    simp [halert, afterPublish, should_emit, dictGet, initialConsumerState, emptySink,
      thermalSeverity, thermalEvent]
  · have k3 := thermalLineStep_valid DEFAULT_SETTINGS initialConsumerState 0 "t0" 20 32 25 none 1 rfl rfl rfl
    simp only [processThermalLines]
    rw [k3]
    norm_num [thr_in_same_unit, is_kelvin_value, DEFAULT_SETTINGS, should_emit, dictGet,
      initialConsumerState, emptySink, afterPublish, thermalSeverity, thermalEvent, KELVIN_OFFSET]
  · have k4 := thermalLineStep_valid DEFAULT_SETTINGS initialConsumerState 0 "t0" 20 34 25 none 1 rfl rfl rfl
    simp only [processThermalLines]
    rw [k4]
    norm_num [thr_in_same_unit, is_kelvin_value, DEFAULT_SETTINGS, should_emit, dictGet,
      initialConsumerState, emptySink, afterPublish, thermalSeverity, thermalEvent, KELVIN_OFFSET]

/-- C2 witness at t_max = 32 under the default config: the event log of
the step is nonempty. -/
theorem C2_witness :
    (thermalLineStep DEFAULT_SETTINGS initialConsumerState 0
      (some (mkValidObj "t0" 20 32 25 none 1))).error_log ≠ [] := by
  have h : (32 : ℚ) ≥ thr_in_same_unit 32 DEFAULT_SETTINGS.thermal_threshold_c := by
    norm_num [thr_in_same_unit, is_kelvin_value, DEFAULT_SETTINGS]
  exact (C2_thermal_threshold_severity DEFAULT_SETTINGS 0 "t0" 20 32 25 none 1).1.mpr h

/-- C5: the normalized threshold is unchanged for samples at or below
120.0 and is raised by 273.15 for samples above 120.0, and
normalization never alters the sample itself — the frame stored in the
latest slot is exactly the decoded object. -/
theorem C5_threshold_normalization (v c : ℚ) (cfg : Settings) (now : ℚ) (ts : String)
    (mn mx me : ℚ) (ip : Option String) (fn : ℤ) :
    (v ≤ 120 → thr_in_same_unit v c = c) ∧
    (120 < v → thr_in_same_unit v c = c + 273.15) ∧
    ((thermalLineStep cfg initialConsumerState now (some (mkValidObj ts mn mx me ip fn))).latest_frame =
      some (mkValidObj ts mn mx me ip fn)) := by
  refine ⟨?_, ?_, ?_⟩
  · intro h
    have hns : ¬ ((120.0 : ℚ) < v) := by
      intro hc
      norm_num at hc
      linarith
    simp [thr_in_same_unit, is_kelvin_value, hns]
  · intro h
    have hs : ((120.0 : ℚ) < v) := by
      norm_num
      linarith
    simp [thr_in_same_unit, is_kelvin_value, hs, KELVIN_OFFSET]
  · rw [thermalLineStep_valid cfg initialConsumerState now ts mn mx me ip fn rfl rfl rfl]
    split_ifs <;> simp [afterPublish]

/-- C5 witness: a 100-degree sample leaves a 30-degree threshold
unchanged and a 300-degree (Kelvin-scale) sample raises it by 273.15. -/
theorem C5_witness :
    thr_in_same_unit 100 30 = 30 ∧ thr_in_same_unit 300 30 = 30 + 273.15 :=
  ⟨(C5_threshold_normalization 100 30 DEFAULT_SETTINGS 0 "t" 0 0 0 none 0).1 (by norm_num),
   (C5_threshold_normalization 300 30 DEFAULT_SETTINGS 0 "t" 0 0 0 none 0).2.1 (by norm_num)⟩

/-- C6 counterexample: a frame whose JSON parses but whose t_min is
missing is rejected, yet it leaves the per-connection Sink accumulator
partially updated — the timestamp list has grown while the mins list
has not — refuting the claim that no state, including the accumulator,
is ever partially updated by a failed decode. -/
theorem C6_cex_sink_partially_updated :
    (thermalLineStep DEFAULT_SETTINGS initialConsumerState 0 (some badThermalObj)).sink.timestamps = ["tb"] ∧
    (thermalLineStep DEFAULT_SETTINGS initialConsumerState 0 (some badThermalObj)).sink.mins = [] ∧
    (thermalLineStep DEFAULT_SETTINGS initialConsumerState 0 (some badThermalObj)).latest_frame = none ∧
    (thermalLineStep DEFAULT_SETTINGS initialConsumerState 0 (some badThermalObj)).frame_history = [] :=
  ⟨rfl, rfl, rfl, rfl⟩

/-- C6 (amended): a failed decode never touches the latest-frame slot,
the rolling history, the event logs or the dedup map — a line that
fails JSON parsing applies nothing at all, and a parsed frame on which
Sink.add raises leaves everything unchanged except the Sink
accumulator, which may retain the appends made before the raise. -/
theorem C6_failed_decode_no_partial_apply (cfg : Settings) (st : ConsumerState) (now : ℚ)
    (obj : ThermalObj) (hfail : (sinkAdd st.sink obj).2 = false) :
    thermalLineStep cfg st now none = st ∧
    thermalLineStep cfg st now (some obj) = { st with sink := (sinkAdd st.sink obj).1 } := by
  refine ⟨rfl, ?_⟩
  simp [thermalLineStep, hfail]

/-- C6 witness at the frame with a missing t_min. -/
theorem C6_witness :
    thermalLineStep DEFAULT_SETTINGS initialConsumerState 0 (some badThermalObj) =
      { initialConsumerState with sink := (sinkAdd initialConsumerState.sink badThermalObj).1 } :=
  (C6_failed_decode_no_partial_apply DEFAULT_SETTINGS initialConsumerState 0 badThermalObj rfl).2

/-- C7 counterexample: a subscriber on the /ws push channel that
attaches before any frame was ingested is sent nothing at all on a loop
tick — there is no explicit empty indication on the push channel,
refuting the claim that both channels give one (the on-demand snapshot
endpoint does). -/
theorem C7_cex_websocket_sends_nothing_before_data :
    websocket_thermal_tick none = none ∧ get_latest none = LatestResp.noData :=
  ⟨rfl, rfl⟩

/-- C7 (amended): attaching before any data exists yields the explicit
"no data yet" object on the on-demand snapshot endpoint, but the /ws
push channel simply sends nothing on each tick until a frame exists;
once a frame exists both channels deliver it. -/
theorem C7_no_data_indications :
    get_latest none = LatestResp.noData ∧
    (∀ g : ThermalObj, get_latest (some g) = LatestResp.frame g) ∧
    websocket_thermal_tick none = none ∧
    (∀ g : ThermalObj, websocket_thermal_tick (some g) = some g) :=
  ⟨rfl, fun _ => rfl, rfl, fun _ => rfl⟩

/-- C3: an alerting thermal frame is recorded iff its dedup key is
absent from the map or more than ERROR_COOLDOWN (5.0 s) old; on
emission the event is appended to both the in-memory log and the
durable sink and the key is stamped with now; otherwise nothing is
recorded anywhere and the map is unchanged.  Concretely, of three
identical alerts at t = 0, t = 3 and t = 5.1, exactly the first and the
third are recorded. -/
theorem C3_dedup_emission (cfg : Settings) (st : ConsumerState) (now : ℚ)
    (ts : String) (mn mx me : ℚ) (ip : Option String) (fn : ℤ)
    (hmax : st.sink.maxs.length = st.sink.mins.length)
    (hfn : st.sink.frame_nos.length = st.sink.mins.length)
    (hts : st.sink.timestamps.length = st.sink.mins.length)
    (halert : mx ≥ thr_in_same_unit mx cfg.thermal_threshold_c) :
    (should_emit st.last_error_time ("THERMAL", fn) now = true ↔
      (dictGet st.last_error_time ("THERMAL", fn) = none ∨
       ∃ t, dictGet st.last_error_time ("THERMAL", fn) = some t ∧ now - t > ERROR_COOLDOWN)) ∧
    (should_emit st.last_error_time ("THERMAL", fn) now = true →
      ∃ ev, (thermalLineStep cfg st now (some (mkValidObj ts mn mx me ip fn))).error_log = st.error_log ++ [ev] ∧
        (thermalLineStep cfg st now (some (mkValidObj ts mn mx me ip fn))).events_file = st.events_file ++ [ev] ∧
        dictGet (thermalLineStep cfg st now (some (mkValidObj ts mn mx me ip fn))).last_error_time
          ("THERMAL", fn) = some now) ∧
    (should_emit st.last_error_time ("THERMAL", fn) now = false →
      (thermalLineStep cfg st now (some (mkValidObj ts mn mx me ip fn))).error_log = st.error_log ∧
      (thermalLineStep cfg st now (some (mkValidObj ts mn mx me ip fn))).events_file = st.events_file ∧
      (thermalLineStep cfg st now (some (mkValidObj ts mn mx me ip fn))).last_error_time = st.last_error_time) ∧
    ((processThermalLines DEFAULT_SETTINGS initialConsumerState
        [(0, some (mkValidObj "t0" 20 32 25 none 7)),
         (3, some (mkValidObj "t0" 20 32 25 none 7)),
         (51 / 10, some (mkValidObj "t0" 20 32 25 none 7))]).error_log.length = 2 ∧
      (processThermalLines DEFAULT_SETTINGS initialConsumerState
        [(0, some (mkValidObj "t0" 20 32 25 none 7)),
         (3, some (mkValidObj "t0" 20 32 25 none 7)),
         (51 / 10, some (mkValidObj "t0" 20 32 25 none 7))]).events_file.length = 2) := by
  have key := thermalLineStep_valid cfg st now ts mn mx me ip fn hmax hfn hts
  refine ⟨?_, ?_, ?_, ?_⟩
  · unfold should_emit
    cases hdg : dictGet st.last_error_time ("THERMAL", fn) with
    | none => simp
    | some t => simp [hdg]
  · intro hemit
    rw [key]
    simp only [halert, ge_iff_le, if_true, hemit, afterPublish]
    refine ⟨thermalEvent ts
      (thermalSeverity mx (thr_in_same_unit mx cfg.thermal_warning_c)
        (thr_in_same_unit mx cfg.thermal_critical_c))
      mx (if is_kelvin_value mx then mx - KELVIN_OFFSET else mx)
      (thr_in_same_unit mx cfg.thermal_threshold_c) cfg.thermal_threshold_c fn, ?_, ?_, ?_⟩
    · simp [halert]
    · simp [halert]
    · simp [halert, dictGet_dictSet]
  · intro hsup
    rw [key]
    simp [halert, hsup, afterPublish]
  · constructor
    · norm_num [processThermalLines, thermalLineStep, thermalDetect, sinkAdd, mkValidObj,
        dequeAppend, FRAME_HISTORY_SIZE, thr_in_same_unit, is_kelvin_value, DEFAULT_SETTINGS,
        KELVIN_OFFSET, should_emit, dictGet, dictSet, ERROR_COOLDOWN, thermalSeverity,
        thermalEvent, initialConsumerState, emptySink]
    · norm_num [processThermalLines, thermalLineStep, thermalDetect, sinkAdd, mkValidObj,
        dequeAppend, FRAME_HISTORY_SIZE, thr_in_same_unit, is_kelvin_value, DEFAULT_SETTINGS,
        KELVIN_OFFSET, should_emit, dictGet, dictSet, ERROR_COOLDOWN, thermalSeverity,
        thermalEvent, initialConsumerState, emptySink]

/-- C3 witness: from a fresh state an alerting frame stamps its key
with the current time. -/
theorem C3_witness :
    dictGet (thermalLineStep DEFAULT_SETTINGS initialConsumerState 0
      (some (mkValidObj "t0" 20 32 25 none 7))).last_error_time ("THERMAL", 7) = some 0 := by
  have halert : (32 : ℚ) ≥ thr_in_same_unit 32 DEFAULT_SETTINGS.thermal_threshold_c := by
    norm_num [thr_in_same_unit, is_kelvin_value, DEFAULT_SETTINGS]
  obtain ⟨ev, h1, h2, h3⟩ :=
    (C3_dedup_emission DEFAULT_SETTINGS initialConsumerState 0 "t0" 20 32 25 none 7
      rfl rfl rfl halert).2.1 rfl
  exact h3

/-- Indexing the diff list built by zip and map. -/
lemma zip_abs_get (actual ideal : List ℚ) (j : ℕ) (a b : ℚ)
    (ha : actual[j]? = some a) (hb : ideal[j]? = some b) :
    ((actual.zip ideal).map (fun p => |p.1 - p.2|))[j]? = some |a - b| := by
  induction actual generalizing ideal j with
  | nil => simp at ha
  | cons x xs ih =>
    cases ideal with
    | nil => simp at hb
    | cons y ys =>
      cases j with
      | zero =>
        simp only [List.getElem?_cons_zero, Option.some.injEq] at ha hb
        subst ha
        subst hb
        simp [List.zip_cons_cons]
      | succ n =>
        simp only [List.getElem?_cons_succ] at ha hb
        simpa [List.zip_cons_cons] using ih ys n ha hb

/-- Membership in the enumeration with a running start index recovers
the list index and element. -/
lemma enumerateFrom_mem : ∀ (l : List ℚ) (k : ℕ) (jd : ℕ × ℚ),
    jd ∈ enumerateFrom k l → k ≤ jd.1 ∧ l[jd.1 - k]? = some jd.2 := by
  intro l
  induction l with
  | nil =>
    intro k jd h
    simp [enumerateFrom] at h
  | cons d rest ih =>
    intro k jd h
    simp only [enumerateFrom, List.mem_cons] at h
    rcases h with h | h
    · subst h
      exact ⟨by simp, by simp⟩
    · obtain ⟨hle, hget⟩ := ih (k + 1) jd h
      refine ⟨by omega, ?_⟩
      have hidx : jd.1 - k = (jd.1 - (k + 1)) + 1 := by omega
      rw [hidx]
      simpa using hget

/-- Membership in enumerate recovers the indexed element. -/
lemma enumerate_mem (l : List ℚ) (jd : ℕ × ℚ) (h : jd ∈ enumerate l) :
    l[jd.1]? = some jd.2 := by
  simpa using (enumerateFrom_mem l 0 jd h).2

/-- Every event added by the per-joint torque fold is the torque event
of one enumerated joint whose diff exceeds the alerting threshold. -/
lemma torqueJointFold_events (now : ℚ) (ts : String) (fn : ℤ) :
    ∀ (l : List (ℕ × ℚ)) (st : ConsumerState) (e : AlertEvent),
      e ∈ (l.foldl (torqueJointStep now ts fn) st).error_log →
      e ∈ st.error_log ∨ ∃ jd ∈ l, jd.2 > TORQUE_THRESHOLD ∧ e = torqueEvent ts jd.1 jd.2 fn := by
  intro l
  induction l with
  | nil =>
    intro st e he
    exact Or.inl he
  | cons jd rest ih =>
    intro st e he
    rw [List.foldl_cons] at he
    rcases ih (torqueJointStep now ts fn st jd) e he with h | ⟨jd', hmem, hgt, heq⟩
    · unfold torqueJointStep at h
      split_ifs at h with h1 h2
      · simp only [List.mem_append, List.mem_singleton] at h
        rcases h with h' | h'
        · exact Or.inl h'
        · exact Or.inr ⟨jd, List.mem_cons_self jd rest, h1, h'⟩
      · exact Or.inl h
      · exact Or.inl h
    · exact Or.inr ⟨jd', List.mem_cons_of_mem jd hmem, hgt, heq⟩

/-- A diff above the 0.47 alerting threshold is classified WARNING or
CRITICAL, never INFO, because 0.47 > 0.3. -/
lemma torqueSeverity_of_alert (d : ℚ) (h : d > TORQUE_THRESHOLD) :
    torqueSeverity d = "CRITICAL" ∨ torqueSeverity d = "WARNING" := by
  have h47 : d > 0.47 := by simpa [TORQUE_THRESHOLD] using h
  unfold torqueSeverity
  split_ifs with h1 h2
  · exact Or.inl rfl
  · exact Or.inr rfl
  · exfalso
    apply h2
    have : (0.3 : ℚ) < 0.47 := by norm_num
    linarith

/-- Every event added by the per-joint torque fold has severity WARNING
or CRITICAL. -/
lemma torqueJointFold_severity (now : ℚ) (ts : String) (fn : ℤ) :
    ∀ (l : List (ℕ × ℚ)) (st : ConsumerState) (e : AlertEvent),
      e ∈ (l.foldl (torqueJointStep now ts fn) st).error_log →
      e ∈ st.error_log ∨ e.severity = "WARNING" ∨ e.severity = "CRITICAL" := by
  intro l
  induction l with
  | nil =>
    intro st e he
    exact Or.inl he
  | cons jd rest ih =>
    intro st e he
    rw [List.foldl_cons] at he
    rcases ih (torqueJointStep now ts fn st jd) e he with h | h | h
    · unfold torqueJointStep at h
      split_ifs at h with h1 h2
      · simp only [List.mem_append, List.mem_singleton] at h
        rcases h with h' | h'
        · exact Or.inl h'
        · subst h'
          rcases torqueSeverity_of_alert jd.2 h1 with hs | hs
          · exact Or.inr (Or.inr (by simpa [torqueEvent] using hs))
          · exact Or.inr (Or.inl (by simpa [torqueEvent] using hs))
      · exact Or.inl h
      · exact Or.inl h
    · exact Or.inr (Or.inl h)
    · exact Or.inr (Or.inr h)

/-- C4: the torque evaluator computes diffs[j] as the absolute
difference of actual and ideal at joint j, flags exactly the joints
whose diff exceeds 0.47, marks the frame anomalous iff some joint is
flagged; every joint event emitted by a torque line is the event of an
alerting joint (diff > 0.47) whose severity is CRITICAL if its diff
exceeds 0.6, WARNING if it exceeds 0.3, else INFO; and on the concrete
frame with actual[2] = ideal[2] + 0.5 the only recorded event is for
joint 3 with severity WARNING. -/
theorem C4_torque_diff_alert_severity :
    (∀ (actual ideal : List ℚ) (j : ℕ) (a b : ℚ),
      actual[j]? = some a → ideal[j]? = some b →
        (detect_torque_anomaly actual ideal).1[j]? = some |a - b| ∧
        (detect_torque_anomaly actual ideal).2[j]? = some (decide (|a - b| > 0.47))) ∧
    (∀ actual ideal : List ℚ,
      ((detect_torque_anomaly actual ideal).2.any id = true ↔
        ∃ d ∈ (detect_torque_anomaly actual ideal).1, d > 0.47)) ∧
    (∀ (st : ConsumerState) (now : ℚ) (pkt : TorquePkt) (st' : ConsumerState),
      torqueLineStep st now (some pkt) = Except.ok st' →
        ∃ out, st'.latest_torque = some out ∧
          out.diffs = (detect_torque_anomaly pkt.torque_actual pkt.torque_ideal).1 ∧
          out.anomaly = (detect_torque_anomaly pkt.torque_actual pkt.torque_ideal).2.any id) ∧
    (∀ (st : ConsumerState) (now : ℚ) (pkt : TorquePkt) (st' : ConsumerState),
      torqueLineStep st now (some pkt) = Except.ok st' →
        ∀ e ∈ st'.error_log, e ∈ st.error_log ∨
          ∃ j d, (detect_torque_anomaly pkt.torque_actual pkt.torque_ideal).1[j]? = some d ∧
            d > 0.47 ∧ e = torqueEvent pkt.timestamp j d pkt.frame_no ∧
            e.severity = (if d > 0.6 then "CRITICAL" else if d > 0.3 then "WARNING" else "INFO")) ∧
    ((processTorqueLines initialConsumerState [(0, some pktJ3)]).map
        (fun s => s.error_log.map AlertEvent.severity) = Except.ok ["WARNING"]) ∧
    ((processTorqueLines initialConsumerState [(0, some pktJ3)]).map
        (fun s => s.error_log.map AlertEvent.message) = Except.ok ["Joint 3 torque exceeded threshold"]) ∧
    ((processTorqueLines initialConsumerState [(0, some pktJ3)]).map
        (fun s => s.latest_torque.map TorqueOut.anomaly) = Except.ok (some true)) := by
  refine ⟨?_, ?_, ?_, ?_, ?_, ?_, ?_⟩
  · intro actual ideal j a b ha hb
    have hd := zip_abs_get actual ideal j a b ha hb
    refine ⟨by simpa [detect_torque_anomaly] using hd, ?_⟩
    have : (detect_torque_anomaly actual ideal).2[j]? =
        ((detect_torque_anomaly actual ideal).1[j]?).map (fun d => decide (d > TORQUE_THRESHOLD)) := by
      simp [detect_torque_anomaly, List.getElem?_map]
    rw [this, show (detect_torque_anomaly actual ideal).1 = (actual.zip ideal).map (fun p => |p.1 - p.2|) from rfl, hd]
    simp [TORQUE_THRESHOLD]
  · intro actual ideal
    simp [detect_torque_anomaly, List.any_map, List.any_eq_true, Function.comp,
      TORQUE_THRESHOLD]
    constructor
    · rintro ⟨a, b, hm, hgt⟩
      exact ⟨|a - b|, ⟨a, b, hm, rfl⟩, hgt⟩
    · rintro ⟨d, ⟨a, b, hm, hd⟩, hgt⟩
      subst hd
      exact ⟨a, b, hm, hgt⟩
  · intro st now pkt st' hok
    simp only [torqueLineStep, Except.ok.injEq] at hok
    subst hok
    exact ⟨_, rfl, rfl, rfl⟩
  · intro st now pkt st' hok e he
    simp only [torqueLineStep, Except.ok.injEq] at hok
    subst hok
    simp only at he
    by_cases han : ((detect_torque_anomaly pkt.torque_actual pkt.torque_ideal).2.any id) = true
    · rw [if_pos han] at he
      rcases torqueJointFold_events now pkt.timestamp pkt.frame_no _ st e he with
        h | ⟨jd, hmem, hgt, heq⟩
      · exact Or.inl h
      · refine Or.inr ⟨jd.1, jd.2, enumerate_mem _ _ hmem, ?_, heq, ?_⟩
        · simpa [TORQUE_THRESHOLD] using hgt
        · subst heq
          simp [torqueEvent, torqueSeverity]
    · rw [if_neg han] at he
      exact Or.inl he
  · have ha : |(1 : ℚ) / 2| = 1 / 2 := by norm_num
    have hb : |(3 : ℚ) / 2 - 1| = 1 / 2 := by norm_num
    have hmsg : ("Joint " ++ toString (3 : ℕ) ++ " torque exceeded threshold") =
      "Joint 3 torque exceeded threshold" := rfl
    norm_num [hmsg, processTorqueLines, torqueLineStep, detect_torque_anomaly, TORQUE_THRESHOLD,
      enumerate, enumerateFrom, torqueJointStep, should_emit, dictGet, dictSet,
      ERROR_COOLDOWN, torqueEvent, torqueSeverity, pktJ3, initialConsumerState, emptySink,
      Except.map, ha, hb]
  · have ha : |(1 : ℚ) / 2| = 1 / 2 := by norm_num
    have hb : |(3 : ℚ) / 2 - 1| = 1 / 2 := by norm_num
    have hmsg : ("Joint " ++ toString (3 : ℕ) ++ " torque exceeded threshold") =
      "Joint 3 torque exceeded threshold" := rfl
    norm_num [hmsg, processTorqueLines, torqueLineStep, detect_torque_anomaly, TORQUE_THRESHOLD,
      enumerate, enumerateFrom, torqueJointStep, should_emit, dictGet, dictSet,
      ERROR_COOLDOWN, torqueEvent, torqueSeverity, pktJ3, initialConsumerState, emptySink,
      Except.map, ha, hb]
  · have ha : |(1 : ℚ) / 2| = 1 / 2 := by norm_num
    have hb : |(3 : ℚ) / 2 - 1| = 1 / 2 := by norm_num
    have hmsg : ("Joint " ++ toString (3 : ℕ) ++ " torque exceeded threshold") =
      "Joint 3 torque exceeded threshold" := rfl
    norm_num [hmsg, processTorqueLines, torqueLineStep, detect_torque_anomaly, TORQUE_THRESHOLD,
      enumerate, enumerateFrom, torqueJointStep, should_emit, dictGet, dictSet,
      ERROR_COOLDOWN, torqueEvent, torqueSeverity, pktJ3, initialConsumerState, emptySink,
      Except.map, ha, hb]

/-- C4 witness at joint index 2 of the concrete frame. -/
theorem C4_witness :
    (detect_torque_anomaly [1, 1, 1.5, 1, 1, 1] [1, 1, 1, 1, 1, 1]).1[2]? = some |(1.5 : ℚ) - 1| ∧
    (detect_torque_anomaly [1, 1, 1.5, 1, 1, 1] [1, 1, 1, 1, 1, 1]).2[2]? =
      some (decide (|(1.5 : ℚ) - 1| > 0.47)) :=
  C4_torque_diff_alert_severity.1 [1, 1, 1.5, 1, 1, 1] [1, 1, 1, 1, 1, 1] 2 1.5 1 rfl rfl

/-- C10: every event recorded by a torque line has severity WARNING or
CRITICAL, never INFO: a joint reaches the severity ladder only with
diff above 0.47, which already exceeds the 0.3 WARNING bound. -/
theorem C10_torque_events_never_info (st : ConsumerState) (now : ℚ) (pkt : TorquePkt)
    (st' : ConsumerState) (hok : torqueLineStep st now (some pkt) = Except.ok st')
    (e : AlertEvent) (he : e ∈ st'.error_log) :
    e ∈ st.error_log ∨ e.severity = "WARNING" ∨ e.severity = "CRITICAL" := by
  simp only [torqueLineStep, Except.ok.injEq] at hok
  subst hok
  simp only at he
  by_cases han : ((detect_torque_anomaly pkt.torque_actual pkt.torque_ideal).2.any id) = true
  · rw [if_pos han] at he
    exact torqueJointFold_severity now pkt.timestamp pkt.frame_no _ st e he
  · rw [if_neg han] at he
    exact Or.inl he

/-- The state produced by the concrete torque frame pktJ3. -/
def stJ3 : ConsumerState :=
  { initialConsumerState with
    latest_torque := some
      { frame_no := 1, timestamp := "tq", torque_ideal := [1, 1, 1, 1, 1, 1],
        torque_actual := [1, 1, 1.5, 1, 1, 1], diffs := [0, 0, 0.5, 0, 0, 0], anomaly := true },
    error_log := [torqueEvent "tq" 2 0.5 1],
    events_file := [torqueEvent "tq" 2 0.5 1],
    last_error_time := [(("TORQUE", 3), 0)] }

/-- C10 witness: the event recorded for joint 3 of the concrete frame. -/
theorem C10_witness :
    torqueEvent "tq" 2 0.5 1 ∈ initialConsumerState.error_log ∨
    (torqueEvent "tq" 2 0.5 1).severity = "WARNING" ∨
    (torqueEvent "tq" 2 0.5 1).severity = "CRITICAL" := by
  have hok : torqueLineStep initialConsumerState 0 (some pktJ3) = Except.ok stJ3 := by
    have ha : |(1 : ℚ) / 2| = 1 / 2 := by norm_num
    have hb : |(3 : ℚ) / 2 - 1| = 1 / 2 := by norm_num
    norm_num [torqueLineStep, detect_torque_anomaly, enumerate, enumerateFrom,
      torqueJointStep, should_emit, dictGet, dictSet, TORQUE_THRESHOLD, ERROR_COOLDOWN,
      pktJ3, stJ3, initialConsumerState, emptySink, torqueEvent, torqueSeverity, ha, hb]
  exact C10_torque_events_never_info initialConsumerState 0 pktJ3 stJ3 hok
    (torqueEvent "tq" 2 0.5 1) (by simp [stJ3])

/-- C8: a settings update writes the full settings object durably
before returning, a reload of that document merged into the defaults
restores exactly the updated settings (in particular set(36.0) then
reload yields get() = 36.0), unrecognized keys are ignored on load, and
an absent store loads the defaults. -/
theorem C8_settings_roundtrip (s : Settings) (v : ℚ) :
    ((set_thermal_settings s v).2 = serialize_settings (set_thermal_settings s v).1) ∧
    (load_settings (some (set_thermal_settings s v).2) = (set_thermal_settings s v).1) ∧
    (get_thermal_settings (load_settings (some (set_thermal_settings s 36).2)) = 36) ∧
    (load_settings (some [("bogus", 99)]) = DEFAULT_SETTINGS) ∧
    (load_settings none = DEFAULT_SETTINGS) := by
  refine ⟨rfl, ?_, ?_, ?_, rfl⟩
  · simp [load_settings, serialize_settings, applySetting, set_thermal_settings]
  · simp [load_settings, serialize_settings, applySetting, set_thermal_settings,
      get_thermal_settings]
  · simp [load_settings, applySetting]

/-- C9 counterexample: the thermal ingestion path overwrites the
latest-frame slot with no lock held, refuting the claim that every
mutation of LatestState, RollingHistory, the dedup map and the event
log happens under a lock scoped to that structure. -/
theorem C9_cex_latest_frame_mutated_unlocked :
    mutationLocked thermalLineTrace Shared.latestFrame = false := by
  decide

/-- C9 (amended): only the settings dict is accessed under
_settings_lock — its reads and writes on the ingestion and settings
paths all hold the lock — while every mutation and subscriber read of
the latest-state slots, the rolling history, the dedup map and the
event log is performed with no lock held at all. -/
theorem C9_lock_discipline_actual :
    mutationLocked setSettingsTrace Shared.settingsMap = true ∧
    readLocked getSettingsTrace Shared.settingsMap = true ∧
    readLocked setSettingsTrace Shared.settingsMap = true ∧
    readLocked thermalLineTrace Shared.settingsMap = true ∧
    accessUnlocked thermalLineTrace Shared.latestFrame = true ∧
    accessUnlocked thermalLineTrace Shared.frameHistory = true ∧
    accessUnlocked thermalLineTrace Shared.dedupMap = true ∧
    accessUnlocked thermalLineTrace Shared.eventLog = true ∧
    accessUnlocked torqueLineTrace Shared.latestTorque = true ∧
    accessUnlocked torqueLineTrace Shared.dedupMap = true ∧
    accessUnlocked torqueLineTrace Shared.eventLog = true ∧
    accessUnlocked getLatestTrace Shared.latestFrame = true ∧
    accessUnlocked getErrorsTrace Shared.eventLog = true ∧
    accessUnlocked websocketThermalTrace Shared.latestFrame = true := by
  decide

end MindTwin

